import Mathlib

/-!
Verification development for the proxy rotation and replenishment subsystem of
the movies-ds-incubator repository (`src/movie_scrapers/scrapers/middlewares.py`
and `src/movie_scrapers/modules/async_looper.py`).

Python dictionaries are modelled as association lists keyed by strings, Python
sets as duplicate-free lists, wall-clock time as `Nat` seconds, and raised
exceptions as `Except` values.  Sources that depend on the environment
(file system, subprocess, the proxybroker feed, the random generator) take the
environment's answers as explicit parameters.
-/

namespace MoviesDS

/-- Tags for the Python exception classes that the subsystem can raise or
catch.  `other` covers every remaining subclass of `Exception` (e.g. OSError,
ValueError) that the proxybroker may throw. -/
inductive PyExc where
  | calledProcessError
  | timeoutError
  | runtimeError
  | attributeError
  | other (name : String)
deriving DecidableEq, Repr

/-- `k in d` for a Python dict modelled as an association list. -/
def containsKey (l : List (String × α)) (k : String) : Bool :=
  l.any (fun p => p.1 = k)

/-- `d[k] = v` on a dict modelled as an association list: overwrite the first
binding of `k` when present, append otherwise. -/
def dictSet (l : List (String × α)) (k : String) (v : α) : List (String × α) :=
  if containsKey l k then
    l.map (fun p => if p.1 = k then (k, v) else p)
  else
    l ++ [(k, v)]

/-- `d[k]` with a default, on a dict modelled as an association list. -/
def dictGetD (l : List (String × α)) (k : String) (dflt : α) : α :=
  match l.find? (fun p => p.1 = k) with
  | some p => p.2
  | none => dflt

/-- `s.add(x)` on a Python set modelled as a duplicate-free list. -/
def setAdd (l : List String) (x : String) : List String :=
  if x ∈ l then l else l ++ [x]

/-- Python's whitespace characters for `str.strip`. -/
def isPyWhitespace (c : Char) : Bool :=
  c.toNat = 32 || c.toNat = 9 || c.toNat = 10 || c.toNat = 13 ||
  c.toNat = 11 || c.toNat = 12

/-- Python `str.strip()`: remove leading and trailing whitespace. -/
def pyStrip (s : String) : String :=
  String.mk (((s.data.dropWhile isPyWhitespace).reverse.dropWhile
    isPyWhitespace).reverse)

/-- `rotating_proxies.utils.extract_proxy_hostport` (library helper used by
`CustomProxies.add`): the `host:port` part of a proxy url — the text after the
scheme separator and before any path, with credentials before `@` dropped. -/
def extract_proxy_hostport (proxy : String) : String :=
  let afterScheme :=
    match proxy.splitOn "://" with
    | [_, rest] => rest
    | _ => proxy
  let netloc :=
    match afterScheme.splitOn "/" with
    | [] => afterScheme
    | h :: _ => h
  match (netloc.splitOn "@").reverse with
  | [] => netloc
  | h :: _ => h

/-- `rotating_proxies.expire.ProxyState`, the per-proxy health record.
Modelled from the spec: HealthState carries a failure count and a backoff
deadline (`next_check`); `backoff_time` is the width of the last backoff
window. -/
structure ProxyState where
  failed_attempts : Nat
  next_check : Option Nat
  backoff_time : Nat
deriving DecidableEq, Repr

/-- A freshly inserted proxy: no failures, no backoff deadline. -/
def ProxyState.fresh : ProxyState := ⟨0, none, 0⟩

/-- The pool state of `rotating_proxies.expire.Proxies`, the base class of
`CustomProxies`: the Proxy → HealthState mapping, the HostPort index, and the
unchecked / good / dead partition.  Modelled from the spec: the pool keeps a
mapping from proxies to health state plus a derived HostPort index, and every
proxy is in at most one of the live (good), unchecked, backing-off/dead
partitions. -/
structure Proxies where
  proxies : List (String × ProxyState)
  proxies_by_hostport : List (String × String)
  unchecked : List String
  good : List String
  dead : List String
deriving DecidableEq, Repr

/-- Build the pool from a seed proxy list, as the `Proxies` constructor does:
every seed proxy gets a fresh state, goes to the HostPort index and starts
unchecked. -/
def Proxies.ofList (seed : List String) : Proxies :=
  { proxies := seed.map (fun p => (p, ProxyState.fresh))
    proxies_by_hostport := seed.map (fun p => (extract_proxy_hostport p, p))
    unchecked := seed
    good := []
    dead := [] }

/-- `CustomProxies.add` (middlewares.py lines 442-451): a no-op when the proxy
is already a key of `self.proxies`; otherwise insert a fresh state, update the
HostPort index and add the proxy to the unchecked set. -/
def Proxies.add (pool : Proxies) (proxy : String) : Proxies :=
  if containsKey pool.proxies proxy then
    pool
  else
    { pool with
      proxies := dictSet pool.proxies proxy ProxyState.fresh
      proxies_by_hostport :=
        dictSet pool.proxies_by_hostport (extract_proxy_hostport proxy) proxy
      unchecked := setAdd pool.unchecked proxy }

/-- `CustomProxies.update_proxies` (middlewares.py lines 182-193): add every
newly collected proxy to the pool, one `add` per proxy. -/
def Proxies.update_proxies (pool : Proxies) (new_proxies : List String) :
    Proxies :=
  new_proxies.foldl Proxies.add pool

/-- `len(self.proxies)`: the number of keys of the pool mapping. -/
def Proxies.size (pool : Proxies) : Nat := pool.proxies.length

/-- The exponential backoff width.  Modelled from the spec: the backoff window
after a failure is `min(backoffBase * 2^failureCount, backoffCap)`, computed
from the failure count before the increment (so the first failure backs off
for `backoffBase` seconds).  The deterministic width is used in place of the
library's random jitter, which only scales it by a uniform factor in [0, 1]. -/
def exp_backoff (base cap attempt : Nat) : Nat :=
  min (base * 2 ^ attempt) cap

/-- Recording a failure on a proxy.  Modelled from the spec: `recordFailure`
increments `failureCount` and sets the backoff deadline to
`now + min(backoffBase * 2^failureCount, backoffCap)`; the proxy leaves the
live (good) and unchecked partitions and joins the backing-off/dead partition,
from which selection never draws until it is reanimated. -/
def Proxies.mark_dead (pool : Proxies) (proxy : String)
    (now base cap : Nat) : Proxies :=
  if containsKey pool.proxies proxy then
    let st := dictGetD pool.proxies proxy ProxyState.fresh
    let bt := exp_backoff base cap st.failed_attempts
    { pool with
      proxies := dictSet pool.proxies proxy
        ⟨st.failed_attempts + 1, some (now + bt), bt⟩
      unchecked := pool.unchecked.erase proxy
      good := pool.good.erase proxy
      dead := setAdd pool.dead proxy }
  else
    pool

/-- The candidates `get_random` draws from.  Modelled from the spec: selection
is uniformly random among the proxies that are not in the backing-off/dead
partition, i.e. the unchecked and good partitions; dead or backing-off proxies
re-enter them only through the explicit reanimation step below. -/
def Proxies.available (pool : Proxies) : List String :=
  pool.unchecked ++ pool.good.filter (fun p => p ∉ pool.unchecked)

/-- `get_random` returns `None` exactly when no candidate is available.
Selection among several candidates is random; only emptiness and membership of
the candidate list are used below. -/
def Proxies.get_random_isNone (pool : Proxies) : Bool :=
  pool.available.isEmpty

/-- The reanimation step of the base pool.  Modelled from the spec: a
backing-off proxy whose deadline has passed (`next_check ≤ now`) becomes
selectable (unchecked) again. -/
def Proxies.reanimate (pool : Proxies) (now : Nat) : Proxies :=
  let revived := pool.dead.filter (fun p =>
    match (dictGetD pool.proxies p ProxyState.fresh).next_check with
    | some t => t ≤ now
    | none => false)
  { pool with
    dead := pool.dead.filter (fun p => p ∉ revived)
    unchecked := pool.unchecked ++ revived.filter (fun p => p ∉ pool.unchecked) }

/-- `CustomRotatingProxiesMiddleware.reanimate_proxies` (middlewares.py lines
120-123): overridden to an empty body — "Prevent dead proxies from
reanimating" — so the middleware's reanimation step leaves the pool unchanged
at every time. -/
def reanimate_proxies (pool : Proxies) (now : Nat) : Proxies :=
  let _ := now
  pool

/-- Iterated failure recording: `k` consecutive `mark_dead` calls on the same
proxy, all at call time `now`. -/
def failK (pool : Proxies) (proxy : String) (now base cap : Nat) :
    Nat → Proxies
  | 0 => pool
  | k + 1 => (failK pool proxy now base cap k).mark_dead proxy now base cap

/-! ### `RepeatedTimer` (async_looper.py) -/

/-- The mutable state of `RepeatedTimer` that `start` / `stop` touch:
`timer` is `self._timer` (`some sched` = a pending `threading.Timer` armed to
fire at absolute time `sched`, `none` = no pending timer), `next_call` and
`interval` as in the source. -/
structure RepeatedTimer where
  timer : Option Nat
  next_call : Nat
  interval : Nat
deriving DecidableEq, Repr

/-- `RepeatedTimer.start` (async_looper.py lines 70-74): when no timer is
pending, advance `next_call` by `interval` and arm a timer for it (a
`threading.Timer` with delay `max (next_call - now) 0` fires at absolute time
`max next_call now`); when a timer is pending, do nothing. -/
def RepeatedTimer.start (t : RepeatedTimer) (now : Nat) : RepeatedTimer :=
  match t.timer with
  | some _ => t
  | none =>
      let nc := t.next_call + t.interval
      { t with next_call := nc, timer := some (max nc now) }

/-- `RepeatedTimer.stop` (async_looper.py lines 76-78): `self._timer.cancel()`
then `self._timer = None`.  When `self._timer` is already `None`, the
attribute access on `None` raises `AttributeError`. -/
def RepeatedTimer.stop (t : RepeatedTimer) : Except PyExc RepeatedTimer :=
  match t.timer with
  | some _ => .ok { t with timer := none }
  | none => .error .attributeError

/-- Whether the pending timer fires at time `now`: only an armed timer whose
schedule has been reached invokes `_run` (and so the scheduled function). -/
def RepeatedTimer.fires (t : RepeatedTimer) (now : Nat) : Bool :=
  match t.timer with
  | some sched => sched ≤ now
  | none => false

/-- `running` (async_looper.py lines 66-68): true exactly when a timer is
pending. -/
def RepeatedTimer.running (t : RepeatedTimer) : Bool :=
  t.timer.isSome

/-! ### The external-process source (`get_proxies_from_external`) -/

/-- What the environment answers for one attempt of the external-process
source: the subprocess outcome of `scrape_proxies` (`check_call`), and the
content of the output file at `PROXY_FILE_PATH` afterwards (`none` = the file
does not exist, `some lines` = its lines). -/
structure ExtAttempt where
  subprocess : Except PyExc Unit
  fileLines : Option (List String)
deriving Repr

/-- The proxy list one attempt collects (middlewares.py lines 286-292): if the
output file exists, its lines stripped, blank lines dropped — regardless of
the subprocess outcome, every raised exception having been caught and logged;
otherwise the empty list. -/
def extCollect (att : ExtAttempt) : List String :=
  match att.fileLines with
  | none => []
  | some lines =>
      lines.filterMap (fun line =>
        let s := pyStrip line
        if s = "" then none else some s)

/-- Whether one attempt deletes the output file (middlewares.py lines
287-292): `os.remove` runs exactly when the file exists. -/
def extFileDeleted (att : ExtAttempt) : Bool :=
  att.fileLines.isSome

/-- `CustomProxies.get_proxies_from_external` (middlewares.py lines 238-311),
with the environment's answer for the `k`-th attempt given by `env k` and a
fuel bound on the recursion depth: when the collected list is empty the
source calls itself again (line 299) with no base case, so `none` means the
recursion has not returned within `fuel` nested calls. -/
def get_proxies_from_external (env : Nat → ExtAttempt) :
    Nat → Nat → Option (List String)
  | _, 0 => none
  | k, fuel + 1 =>
      let proxy_list := extCollect (env k)
      if proxy_list = [] then
        get_proxies_from_external env (k + 1) fuel
      else
        some proxy_list

/-! ### The broker sources and the acquisition chain (`get_proxies`) -/

/-- `CustomProxies.check_proxies` (middlewares.py lines 383-440): run the
broker in check mode on the supplied list; on success the checked list
replaces the argument; `except RuntimeError` returns the argument unchanged;
every other exception propagates to the caller. -/
def check_proxies (proxy_list : List String)
    (broker : Except PyExc (List String)) : Except PyExc (List String) :=
  match broker with
  | .ok checked => .ok checked
  | .error e =>
      if e = .runtimeError then .ok proxy_list else .error e

/-- `CustomProxies.get_proxies_programmatically` (middlewares.py lines
313-381): run the broker in collect mode; `except Exception` catches every
exception, leaving the initial empty `proxy_list` as the result. -/
def get_proxies_programmatically
    (broker : Except PyExc (List String)) : List String :=
  match broker with
  | .ok l => l
  | .error _ => []

/-- The environment of one acquisition-chain run: whether
`ROTATING_PROXY_LIST_PATH` names an existing file and its lines, the inline
`ROTATING_PROXY_LIST` setting, the broker's answer in check mode and in
collect mode, and the external-process source's per-attempt answers with a
fuel bound for its recursion. -/
structure AcqEnv where
  pathIsFile : Bool
  fileLines : List String
  settingsList : List String
  checkBroker : Except PyExc (List String)
  collectBroker : Except PyExc (List String)
  extEnv : Nat → ExtAttempt
  extFuel : Nat

/-- `CustomProxies.get_proxies_from_file` (middlewares.py lines 211-236): when
the configured path is an existing file, its lines are passed through
`check_proxies`; otherwise the inline settings list is used; duplicates are
collapsed either way. -/
def get_proxies_from_file (env : AcqEnv) : Except PyExc (List String) :=
  if env.pathIsFile then
    match check_proxies env.fileLines env.checkBroker with
    | .ok l => .ok l.dedup
    | .error e => .error e
  else
    .ok env.settingsList.dedup

/-- `CustomProxies.get_proxies` (middlewares.py lines 195-209): the
acquisition chain.  File source when `read_from_file`; when `read_from_broker`
and the result so far is empty, the external-process source, then the broker
source if that yielded nothing.  The outer `Option` is `none` when the
external source's unbounded recursion has not returned within its fuel; the
inner `Except` carries an exception the chain raises to its caller. -/
def get_proxies (env : AcqEnv) (read_from_file read_from_broker : Bool) :
    Option (Except PyExc (List String)) :=
  let fileRes : Except PyExc (List String) :=
    if read_from_file then get_proxies_from_file env else .ok []
  match fileRes with
  | .error e => some (.error e)
  | .ok proxy_list =>
      if read_from_broker && proxy_list.isEmpty then
        match get_proxies_from_external env.extEnv 0 env.extFuel with
        | none => none
        | some l2 =>
            if l2.isEmpty then
              some (.ok (get_proxies_programmatically env.collectBroker))
            else
              some (.ok l2)
      else
        some (.ok proxy_list)

/-! ### `CustomRotatingProxiesMiddleware.process_request` (lines 91-118) -/

/-- The outcome of one `process_request` call. -/
inductive PROutcome where
  | passthrough
  | assigned (proxy : String)
  | closeSpider (reason : String)
deriving DecidableEq, Repr

/-- The keyword arguments of one `update_proxies` call made on the escalation
path: which sources the acquisition run covers. -/
structure AcqRun where
  read_from_file : Bool
  read_from_broker : Bool
deriving DecidableEq, Repr

/-- `process_request` (middlewares.py lines 91-118) as a function of the
request's meta flags, the `stop_if_no_proxies` setting, and the pool's
`get_random` answers: `sel0` before any escalation, `sel1` after the first
`update_proxies(read_from_broker=False)` run, `sel2` after the second
`update_proxies(read_from_file=False)` run.  Returns the outcome together
with the list of `update_proxies` runs performed, in order. -/
def process_request (hasProxyMeta rotatingProxyMeta stop_if_no_proxies : Bool)
    (sel0 sel1 sel2 : Option String) : PROutcome × List AcqRun :=
  if hasProxyMeta && !rotatingProxyMeta then
    (.passthrough, [])
  else
    match sel0 with
    | some p => (.assigned p, [])
    | none =>
        if stop_if_no_proxies then
          (.closeSpider "no_proxies", [])
        else
          let run1 : AcqRun := ⟨true, false⟩
          match sel1 with
          | some p => (.assigned p, [run1])
          | none =>
              let run2 : AcqRun := ⟨false, true⟩
              match sel2 with
              | some p => (.assigned p, [run1, run2])
              | none => (.closeSpider "no_proxies_after_reset", [run1, run2])

/-! ### `CustomRotatingProxiesMiddleware.setup_ua` (lines 125-144) -/

/-- The middleware settings `setup_ua` consults. -/
structure UAConfig where
  use_random_ua : Bool
  per_proxy : Bool
deriving DecidableEq, Repr

/-- `setup_ua` (middlewares.py lines 125-144) as a function of the settings,
the current `proxy2ua` cache, the request's `meta["proxy"]`, the user agent
`get_ua()` would draw, and the request headers (an association list).
Returns the updated cache and headers; `request.headers.setdefault` assigns
the user agent only when no User-Agent header is present. -/
def setup_ua (cfg : UAConfig) (proxy2ua : List (String × String))
    (metaProxy : Option String) (drawnUA : String)
    (headers : List (String × String)) :
    List (String × String) × List (String × String) :=
  if cfg.use_random_ua then
    match metaProxy with
    | some proxy =>
        if cfg.per_proxy then
          let cache :=
            if containsKey proxy2ua proxy then proxy2ua
            else dictSet proxy2ua proxy drawnUA
          (cache,
            if containsKey headers "User-Agent" then headers
            else headers ++ [("User-Agent", dictGetD cache proxy drawnUA)])
        else
          (proxy2ua,
            if containsKey headers "User-Agent" then headers
            else headers ++ [("User-Agent", drawnUA)])
    | none =>
        (proxy2ua,
          if containsKey headers "User-Agent" then headers
          else headers ++ [("User-Agent", drawnUA)])
  else
    (proxy2ua, headers)

/-! ### The initial/periodic collection flag (`is_initial_collection`) -/

/-- The outcome of one broker or external-process collection run, as far as
the `is_initial_collection` flag is concerned: `success` is a run that reaches
the epilogue that flips the flag (a non-empty read at middlewares.py line 309,
or the no-exception branch at line 379); `failure` is a run that returns
through an exception handler without reaching it. -/
inductive CollectOutcome where
  | success
  | failure
deriving DecidableEq, Repr

/-- How one collection run updates `is_initial_collection`: the only
assignments in the source are `cls.is_initial_collection = False` on the
success epilogues (middlewares.py lines 309 and 379); no statement ever
assigns `True` after the initializer at line 153. -/
def collectStep (is_initial : Bool) (o : CollectOutcome) : Bool :=
  match o with
  | .success => false
  | .failure => is_initial

/-- The discovery count limit a collection run uses (middlewares.py lines
268-270 and 342-344): the initial count while `is_initial_collection` holds,
the periodic count afterwards. -/
def limitUsed (is_initial : Bool) (initialCount periodicCount : Nat) : Nat :=
  if is_initial then initialCount else periodicCount

/-- The flag value after a sequence of collection runs, starting from `b`. -/
def flagAfter (b : Bool) (os : List CollectOutcome) : Bool :=
  os.foldl collectStep b

/-! ### Dictionary and pool lemmas -/

theorem containsKey_append_left {α : Type} (l l2 : List (String × α))
    (k : String) (h : containsKey l k = true) :
    containsKey (l ++ l2) k = true := by
  simp only [containsKey, List.any_append, Bool.or_eq_true]
  exact Or.inl h

theorem containsKey_append_self {α : Type} (l : List (String × α))
    (k : String) (v : α) : containsKey (l ++ [(k, v)]) k = true := by
  simp [containsKey, List.any_append]

theorem dictGetD_append_of_containsKey {α : Type} (l l2 : List (String × α))
    (k : String) (d : α) (h : containsKey l k = true) :
    dictGetD (l ++ l2) k d = dictGetD l k d := by
  induction l with
  | nil => simp [containsKey] at h
  | cons a t ih =>
      by_cases hak : a.1 = k
      · simp [dictGetD, List.find?_cons, hak]
      · have ht : containsKey t k = true := by
          simpa [containsKey, hak] using h
        simp only [List.cons_append, dictGetD, List.find?_cons, hak]
        simpa [dictGetD] using ih ht

theorem dictGetD_append_of_not_containsKey {α : Type} (l : List (String × α))
    (k : String) (v d : α) (h : containsKey l k = false) :
    dictGetD (l ++ [(k, v)]) k d = v := by
  induction l with
  | nil => simp [dictGetD, List.find?_cons]
  | cons a t ih =>
      have hak : (a.1 = k) = False := by
        simp only [containsKey, List.any_cons, Bool.or_eq_false_iff] at h
        simpa using h.1
      have ht : containsKey t k = false := by
        simp only [containsKey, List.any_cons, Bool.or_eq_false_iff] at h
        exact h.2
      simp only [List.cons_append, dictGetD, List.find?_cons, hak]
      simpa [dictGetD] using ih ht

theorem dictSet_of_not_containsKey {α : Type} (l : List (String × α))
    (k : String) (v : α) (h : containsKey l k = false) :
    dictSet l k v = l ++ [(k, v)] := by
  simp [dictSet, h]

theorem mem_setAdd_self (l : List String) (x : String) : x ∈ setAdd l x := by
  by_cases hx : x ∈ l
  · simp [setAdd, hx]
  · simp [setAdd, hx]

theorem mem_of_mem_setAdd {l : List String} {x y : String}
    (h : y ∈ setAdd l x) : y ∈ l ∨ y = x := by
  by_cases hx : x ∈ l
  · simp only [setAdd, hx, if_pos] at h
    exact Or.inl h
  · simp only [setAdd, hx, if_neg, List.mem_append, List.mem_singleton] at h
    simpa using h

theorem mem_setAdd_of_mem {l : List String} {x y : String}
    (h : y ∈ l) : y ∈ setAdd l x := by
  by_cases hx : x ∈ l
  · simpa [setAdd, hx] using h
  · simp [setAdd, hx, List.mem_append, h]

theorem Proxies.add_of_containsKey (pool : Proxies) (p : String)
    (h : containsKey pool.proxies p = true) : pool.add p = pool := by
  simp [Proxies.add, h]

theorem Proxies.add_dead (pool : Proxies) (p : String) :
    (pool.add p).dead = pool.dead := by
  by_cases h : containsKey pool.proxies p
  · simp [Proxies.add, h]
  · simp [Proxies.add, h]

theorem Proxies.add_good (pool : Proxies) (p : String) :
    (pool.add p).good = pool.good := by
  by_cases h : containsKey pool.proxies p
  · simp [Proxies.add, h]
  · simp [Proxies.add, h]

theorem Proxies.containsKey_add (pool : Proxies) (p q : String)
    (h : containsKey pool.proxies q = true) :
    containsKey (pool.add p).proxies q = true := by
  by_cases hp : containsKey pool.proxies p
  · simpa [Proxies.add, hp] using h
  · have hne : containsKey pool.proxies p = false := by simpa using hp
    simp only [Proxies.add, hne, Bool.false_eq_true, if_neg, Bool.not_eq_true]
    rw [if_neg (by simp [hne])]
    simpa [dictSet_of_not_containsKey _ _ _ hne] using
      containsKey_append_left pool.proxies [(p, ProxyState.fresh)] q h

theorem Proxies.dictGetD_add (pool : Proxies) (p q : String) (d : ProxyState)
    (h : containsKey pool.proxies q = true) :
    dictGetD (pool.add p).proxies q d = dictGetD pool.proxies q d := by
  by_cases hp : containsKey pool.proxies p
  · simp [Proxies.add, hp]
  · have hne : containsKey pool.proxies p = false := by simpa using hp
    have : (pool.add p).proxies = pool.proxies ++ [(p, ProxyState.fresh)] := by
      simp [Proxies.add, hne, dictSet_of_not_containsKey _ _ _ hne]
    rw [this]
    exact dictGetD_append_of_containsKey _ _ _ _ h

theorem Proxies.mem_available_add {pool : Proxies} {p q : String}
    (h : q ∈ (pool.add p).available) : q ∈ pool.available ∨ q = p := by
  by_cases hp : containsKey pool.proxies p
  · rw [Proxies.add_of_containsKey pool p hp] at h
    exact Or.inl h
  · have hne : containsKey pool.proxies p = false := by simpa using hp
    have hunch : (pool.add p).unchecked = setAdd pool.unchecked p := by
      simp [Proxies.add, hne]
    have hgood : (pool.add p).good = pool.good := Proxies.add_good pool p
    simp only [Proxies.available, List.mem_append, List.mem_filter] at h
    rcases h with h | ⟨hg, _⟩
    · rw [hunch] at h
      rcases mem_of_mem_setAdd h with h' | h'
      · exact Or.inl (by simp [Proxies.available, List.mem_append, h'])
      · exact Or.inr h'
    · rw [hgood] at hg
      by_cases hu : q ∈ pool.unchecked
      · exact Or.inl (by simp [Proxies.available, List.mem_append, hu])
      · exact Or.inl (by
          simp [Proxies.available, List.mem_append, List.mem_filter, hg, hu])

theorem Proxies.update_dead (pool : Proxies) (l : List String) :
    (pool.update_proxies l).dead = pool.dead := by
  induction l generalizing pool with
  | nil => rfl
  | cons p t ih =>
      show ((pool.add p).update_proxies t).dead = pool.dead
      rw [ih (pool.add p), Proxies.add_dead]

theorem Proxies.dictGetD_update (pool : Proxies) (q : String)
    (l : List String) (d : ProxyState)
    (h : containsKey pool.proxies q = true) :
    dictGetD (pool.update_proxies l).proxies q d = dictGetD pool.proxies q d := by
  induction l generalizing pool with
  | nil => rfl
  | cons p t ih =>
      show dictGetD ((pool.add p).update_proxies t).proxies q d = _
      rw [ih (pool.add p) (Proxies.containsKey_add pool p q h),
        Proxies.dictGetD_add pool p q d h]

theorem Proxies.containsKey_update (pool : Proxies) (q : String)
    (l : List String) (h : containsKey pool.proxies q = true) :
    containsKey (pool.update_proxies l).proxies q = true := by
  induction l generalizing pool with
  | nil => exact h
  | cons p t ih =>
      exact ih (pool.add p) (Proxies.containsKey_add pool p q h)

theorem Proxies.not_available_update (pool : Proxies) (q : String)
    (l : List String) (hq : containsKey pool.proxies q = true)
    (h : q ∉ pool.available) : q ∉ (pool.update_proxies l).available := by
  induction l generalizing pool with
  | nil => exact h
  | cons p t ih =>
      show q ∉ ((pool.add p).update_proxies t).available
      by_cases hpq : p = q
      · subst hpq
        rw [Proxies.add_of_containsKey pool p hq]
        exact ih pool hq h
      · refine ih (pool.add p) (Proxies.containsKey_add pool p q hq) ?_
        intro hmem
        rcases Proxies.mem_available_add hmem with h' | h'
        · exact h h'
        · exact hpq h'.symm

theorem dictGetD_dictSet {α : Type} (l : List (String × α)) (k : String)
    (v d : α) : dictGetD (dictSet l k v) k d = v := by
  induction l with
  | nil => simp [dictSet, containsKey, dictGetD, List.find?_cons]
  | cons a t ih =>
      by_cases hak : a.1 = k
      · have hck : containsKey (a :: t) k = true := by
          simp [containsKey, hak]
        simp [dictSet, hck, dictGetD, List.find?_cons, hak]
      · by_cases hct : containsKey t k
        · have hck : containsKey (a :: t) k = true := by
            simp only [containsKey, List.any_cons, Bool.or_eq_true]
            exact Or.inr (by simpa [containsKey] using hct)
          have hmap : dictSet (a :: t) k v =
              a :: (t.map fun p => if p.1 = k then (k, v) else p) := by
            simp [dictSet, hck, hak]
          have htmap : dictSet t k v =
              t.map fun p => if p.1 = k then (k, v) else p := by
            simp [dictSet, hct]
          have hskip : dictGetD
              (a :: (t.map fun p => if p.1 = k then (k, v) else p)) k d
              = dictGetD (t.map fun p => if p.1 = k then (k, v) else p) k d := by
            simp [dictGetD, List.find?_cons, hak]
          rw [hmap, hskip, ← htmap]
          exact ih
        · have hct' : containsKey t k = false := by simpa using hct
          have hck : containsKey (a :: t) k = false := by
            simp only [containsKey, List.any_cons, Bool.or_eq_false_iff]
            exact ⟨by simpa using hak, by simpa [containsKey] using hct'⟩
          rw [dictSet_of_not_containsKey _ _ _ hck]
          exact dictGetD_append_of_not_containsKey _ _ _ _ hck

/-! ### Claim theorems -/

/-- C6: for every proxy `p` and pool state, `add p` is a no-op when `p` is
already a key of the pool, and when `p` is absent it inserts `p` with a fresh
HealthState (failure count 0, not dead, unchecked) and adds its HostPort entry
to the index; hence adding the same proxy twice increases the pool size by
exactly one. -/
theorem C6_add_idempotent (pool : Proxies) (p : String) :
    (containsKey pool.proxies p = true → pool.add p = pool) ∧
    (containsKey pool.proxies p = false →
      (pool.add p).proxies = pool.proxies ++ [(p, ProxyState.fresh)] ∧
      dictGetD (pool.add p).proxies p ⟨99, some 99, 99⟩ = ProxyState.fresh ∧
      p ∈ (pool.add p).unchecked ∧
      (pool.add p).dead = pool.dead ∧
      dictGetD (pool.add p).proxies_by_hostport (extract_proxy_hostport p) ""
        = p ∧
      ((pool.add p).add p).size = pool.size + 1) := by
  constructor
  · exact Proxies.add_of_containsKey pool p
  · intro h
    have hpr : (pool.add p).proxies =
        pool.proxies ++ [(p, ProxyState.fresh)] := by
      simp [Proxies.add, h, dictSet_of_not_containsKey _ _ _ h]
    have hunch : (pool.add p).unchecked = setAdd pool.unchecked p := by
      simp [Proxies.add, h]
    have hhp : (pool.add p).proxies_by_hostport =
        dictSet pool.proxies_by_hostport (extract_proxy_hostport p) p := by
      simp [Proxies.add, h]
    refine ⟨hpr, ?_, ?_, Proxies.add_dead pool p, ?_, ?_⟩
    · rw [hpr]
      exact dictGetD_append_of_not_containsKey _ _ _ _ h
    · rw [hunch]
      exact mem_setAdd_self _ _
    · rw [hhp]
      exact dictGetD_dictSet _ _ _ _
    · have hck2 : containsKey (pool.add p).proxies p = true := by
        rw [hpr]
        exact containsKey_append_self _ _ _
      rw [Proxies.add_of_containsKey _ p hck2]
      simp [Proxies.size, hpr]

/-- Witness for C6 at a concrete pool: the second hypothesis holds for a
proxy absent from a one-element pool, and the double-add conclusion follows
by applying the theorem there. -/
theorem C6_add_idempotent_witness :
    containsKey (Proxies.ofList ["http://1.2.3.4:8080"]).proxies
      "http://5.6.7.8:9090" = false ∧
    (((Proxies.ofList ["http://1.2.3.4:8080"]).add "http://5.6.7.8:9090").add
        "http://5.6.7.8:9090").size
      = (Proxies.ofList ["http://1.2.3.4:8080"]).size + 1 :=
  ⟨by decide,
    ((C6_add_idempotent (Proxies.ofList ["http://1.2.3.4:8080"])
      "http://5.6.7.8:9090").2 (by decide)).2.2.2.2.2⟩

/-- C8: for a proxy `q` already present in the pool (live, backing off or
dead), `add q` leaves the whole pool state unchanged, and a merge through
`update_proxies` never alters `q`'s health state or the dead partition, and
never makes an unavailable `q` selectable again — a dead proxy is not revived
by being rediscovered by an acquisition source. -/
theorem C8_existing_entries_frozen (pool : Proxies) (q : String)
    (l : List String) (d : ProxyState)
    (hq : containsKey pool.proxies q = true) :
    pool.add q = pool ∧
    dictGetD (pool.update_proxies l).proxies q d = dictGetD pool.proxies q d ∧
    (pool.update_proxies l).dead = pool.dead ∧
    (q ∉ pool.available → q ∉ (pool.update_proxies l).available) :=
  ⟨Proxies.add_of_containsKey pool q hq,
   Proxies.dictGetD_update pool q l d hq,
   Proxies.update_dead pool l,
   Proxies.not_available_update pool q l hq⟩

/-- The concrete pool of the C8 witness: a single proxy that has been marked
dead once. -/
def c8pool : Proxies :=
  (Proxies.ofList ["http://1.2.3.4:8080"]).mark_dead "http://1.2.3.4:8080"
    0 30 3600

/-- The merge list of the C8 witness: the dead proxy is rediscovered together
with a new one. -/
def c8l : List String := ["http://1.2.3.4:8080", "http://9.9.9.9:1080"]

/-- Witness for C8 at a concrete pool: the dead proxy is a key of the pool
and not selectable, and after the merge it is still not selectable. -/
theorem C8_existing_entries_frozen_witness :
    containsKey c8pool.proxies "http://1.2.3.4:8080" = true ∧
    "http://1.2.3.4:8080" ∉ c8pool.available ∧
    "http://1.2.3.4:8080" ∉ (c8pool.update_proxies c8l).available :=
  ⟨by decide, by decide,
    (C8_existing_entries_frozen c8pool "http://1.2.3.4:8080" c8l
      ProxyState.fresh (by decide)).2.2.2 (by decide)⟩

/-- The single seed proxy of the backoff scenario of C2. -/
def c2proxy : String := "http://1.2.3.4:8080"

/-- The pool of the C2 scenario after `k` consecutive failures recorded at
time 0 with `backoffBase = 30` and `backoffCap = 3600`. -/
def c2pool (k : Nat) : Proxies :=
  failK (Proxies.ofList [c2proxy]) c2proxy 0 30 3600 k

/-- C2 counterexample: after the five failures the last backoff deadline is
time 480, but at time 1000 — long after every backoff window has elapsed —
the middleware's reanimation step (overridden to a no-op) leaves selection
empty: the proxy never becomes selectable again, contradicting the claim. -/
theorem C2_reanimation_counterexample :
    (dictGetD (c2pool 5).proxies c2proxy ProxyState.fresh).next_check
      = some 480 ∧
    Proxies.get_random_isNone (reanimate_proxies (c2pool 5) 1000) = true ∧
    c2proxy ∉ (reanimate_proxies (c2pool 5) 1000).available :=
  ⟨by decide, by decide, by decide⟩

/-- C2 amended: the five failures produce backoff windows of 30, 60, 120,
240, 480 seconds from call time and selection is empty immediately after the
fifth; but the proxy does not become selectable again once the last window
elapses, because the middleware overrides reanimation to a no-op — only the
base pool's reanimation step (which the middleware never runs) would revive
it. -/
theorem C2_backoff_amended :
    ((List.range 5).map fun k =>
      (dictGetD (c2pool (k + 1)).proxies c2proxy ProxyState.fresh).backoff_time)
      = [30, 60, 120, 240, 480] ∧
    ((List.range 5).map fun k =>
      (dictGetD (c2pool (k + 1)).proxies c2proxy ProxyState.fresh).next_check)
      = [some 30, some 60, some 120, some 240, some 480] ∧
    Proxies.get_random_isNone (c2pool 5) = true ∧
    (∀ now : Nat,
      Proxies.get_random_isNone (reanimate_proxies (c2pool 5) now) = true) ∧
    ((c2pool 5).reanimate 480).available = [c2proxy] := by
  refine ⟨by decide, by decide, by decide, fun now => ?_, by decide⟩
  show Proxies.get_random_isNone (c2pool 5) = true
  decide

/-- C3 counterexample: on a timer with a pending `threading.Timer`, the first
`stop()` succeeds, but a second `stop()` on the resulting state raises
`AttributeError` (`self._timer` is `None`), contradicting the claim that the
second call completes without error. -/
theorem C3_stop_counterexample :
    RepeatedTimer.stop ⟨some 10, 10, 5⟩
      = Except.ok (⟨none, 10, 5⟩ : RepeatedTimer) ∧
    RepeatedTimer.stop (⟨none, 10, 5⟩ : RepeatedTimer)
      = Except.error PyExc.attributeError :=
  ⟨rfl, rfl⟩

/-- C3 amended: a first `stop()` on a timer with a pending timer cancels it —
afterwards the timer is not running and never fires again — but `stop()` is
not idempotent: a second call raises `AttributeError` because `self._timer`
is already `None`. -/
theorem C3_stop_amended (t : RepeatedTimer) (i : Nat)
    (h : t.timer = some i) :
    RepeatedTimer.stop t = Except.ok { t with timer := none } ∧
    (∀ now : Nat, RepeatedTimer.fires { t with timer := none } now = false) ∧
    RepeatedTimer.running { t with timer := none } = false ∧
    RepeatedTimer.stop { t with timer := none }
      = Except.error PyExc.attributeError := by
  refine ⟨?_, fun now => rfl, rfl, rfl⟩
  simp [RepeatedTimer.stop, h]

/-- Witness for C3 at a concrete timer state with a pending timer. -/
theorem C3_stop_amended_witness :
    (⟨some 10, 10, 5⟩ : RepeatedTimer).timer = some 10 ∧
    RepeatedTimer.stop (⟨some 10, 10, 5⟩ : RepeatedTimer)
      = Except.ok (⟨none, 10, 5⟩ : RepeatedTimer) :=
  ⟨rfl, (C3_stop_amended ⟨some 10, 10, 5⟩ 10 rfl).1⟩

/-- C7: the initial/periodic collection mode.  Once the flag has left the
initial state it never returns (from `false`, every run sequence keeps it
`false`); any run sequence containing a completed (successful) collection
ends with the flag periodic; as long as no collection completes the flag
stays initial; and the discovery count used is the initial count exactly in
initial mode and the periodic count afterwards. -/
theorem C7_one_way_collection_mode :
    (∀ os : List CollectOutcome, flagAfter false os = false) ∧
    (∀ os : List CollectOutcome,
      CollectOutcome.success ∈ os → flagAfter true os = false) ∧
    (∀ os : List CollectOutcome,
      (∀ o ∈ os, o = CollectOutcome.failure) → flagAfter true os = true) ∧
    (∀ i p : Nat, limitUsed true i p = i ∧ limitUsed false i p = p) := by
  have h1 : ∀ os : List CollectOutcome, flagAfter false os = false := by
    intro os
    induction os with
    | nil => rfl
    | cons o t ih => cases o <;> simpa [flagAfter, collectStep] using ih
  refine ⟨h1, ?_, ?_, fun i p => ⟨rfl, rfl⟩⟩
  · intro os h
    induction os with
    | nil => exact absurd h (List.not_mem_nil _)
    | cons o t ih =>
        cases o with
        | success => simpa [flagAfter, collectStep] using h1 t
        | failure =>
            have ht : CollectOutcome.success ∈ t := by
              rcases List.mem_cons.mp h with h' | h'
              · exact absurd h' (by simp)
              · exact h'
            simpa [flagAfter, collectStep] using ih ht
  · intro os h
    induction os with
    | nil => rfl
    | cons o t ih =>
        have ho : o = CollectOutcome.failure := h o (List.mem_cons_self o t)
        subst ho
        have ht : ∀ o ∈ t, o = CollectOutcome.failure := fun o hmem =>
          h o (List.mem_cons_of_mem _ hmem)
        simpa [flagAfter, collectStep] using ih ht

/-- Witness for C7: a failing run followed by a completed one flips the flag
to periodic. -/
theorem C7_one_way_collection_mode_witness :
    CollectOutcome.success ∈ [CollectOutcome.failure, CollectOutcome.success] ∧
    flagAfter true [CollectOutcome.failure, CollectOutcome.success] = false :=
  ⟨by decide, C7_one_way_collection_mode.2.1 _ (by decide)⟩

/-- C9: when the subprocess of the external-process source fails with any
exception but the output file exists with non-blank content, the source still
returns that content — each line stripped, blank lines dropped — and deletes
the file; the subprocess failure alone does not force an empty result. -/
theorem C9_file_salvage (env : Nat → ExtAttempt) (e : PyExc)
    (lines : List String) (fuel : Nat)
    (h0 : env 0 = ⟨Except.error e, some lines⟩)
    (hne : extCollect ⟨Except.error e, some lines⟩ ≠ []) :
    get_proxies_from_external env 0 (fuel + 1)
      = some (extCollect ⟨Except.error e, some lines⟩) ∧
    extCollect ⟨Except.error e, some lines⟩
      = lines.filterMap (fun line =>
          let s := pyStrip line
          if s = "" then none else some s) ∧
    extFileDeleted (env 0) = true := by
  refine ⟨?_, rfl, by rw [h0]; rfl⟩
  rw [get_proxies_from_external, h0]
  simp [hne]

/-- The environment of the C9 witness: every attempt's subprocess times out,
but the output file holds two proxies amid whitespace and a blank line. -/
def c9env : Nat → ExtAttempt := fun _ =>
  ⟨Except.error PyExc.timeoutError,
    some ["  http://1.2.3.4:8080  ", "   ", "http://5.6.7.8:9090"]⟩

/-- Witness for C9 at the concrete environment: the stripped non-blank lines
come back as the collected list even though the subprocess timed out. -/
theorem C9_file_salvage_witness :
    c9env 0 = ⟨Except.error PyExc.timeoutError,
      some ["  http://1.2.3.4:8080  ", "   ", "http://5.6.7.8:9090"]⟩ ∧
    extCollect ⟨Except.error PyExc.timeoutError,
      some ["  http://1.2.3.4:8080  ", "   ", "http://5.6.7.8:9090"]⟩ ≠ [] ∧
    get_proxies_from_external c9env 0 (0 + 1)
      = some (extCollect ⟨Except.error PyExc.timeoutError,
          some ["  http://1.2.3.4:8080  ", "   ", "http://5.6.7.8:9090"]⟩) ∧
    extCollect ⟨Except.error PyExc.timeoutError,
      some ["  http://1.2.3.4:8080  ", "   ", "http://5.6.7.8:9090"]⟩
      = ["http://1.2.3.4:8080", "http://5.6.7.8:9090"] :=
  ⟨rfl, by decide,
    (C9_file_salvage c9env PyExc.timeoutError
      ["  http://1.2.3.4:8080  ", "   ", "http://5.6.7.8:9090"] 0 rfl
      (by decide)).1,
    by decide⟩

/-- C10: `setup_ua` never overwrites an existing User-Agent header — when the
request already carries one, the headers come back unchanged under every
combination of settings, cache and drawn user agent. -/
theorem C10_ua_no_overwrite (cfg : UAConfig)
    (proxy2ua headers : List (String × String)) (metaProxy : Option String)
    (drawnUA : String) (h : containsKey headers "User-Agent" = true) :
    (setup_ua cfg proxy2ua metaProxy drawnUA headers).2 = headers ∧
    dictGetD (setup_ua cfg proxy2ua metaProxy drawnUA headers).2
        "User-Agent" "" = dictGetD headers "User-Agent" "" := by
  have main : (setup_ua cfg proxy2ua metaProxy drawnUA headers).2 = headers := by
    unfold setup_ua
    by_cases hu : cfg.use_random_ua
    · cases metaProxy with
      | none => simp [hu, h]
      | some proxy =>
          by_cases hp : cfg.per_proxy
          · simp [hu, hp, h]
          · simp [hu, hp, h]
    · simp [hu]
  exact ⟨main, by rw [main]⟩

/-- Witness for C10 at a concrete request that already has a User-Agent. -/
theorem C10_ua_no_overwrite_witness :
    containsKey [("User-Agent", "UA0")] "User-Agent" = true ∧
    (setup_ua ⟨true, true⟩ [] (some "http://1.2.3.4:8080") "UA1"
      [("User-Agent", "UA0")]).2 = [("User-Agent", "UA0")] :=
  ⟨by decide,
    (C10_ua_no_overwrite ⟨true, true⟩ [] [("User-Agent", "UA0")]
      (some "http://1.2.3.4:8080") "UA1" (by decide)).1⟩

/-- The environment of the C4 counterexample: the first two attempts fail
with a timeout and no output file; the third attempt leaves a one-proxy
file. -/
def c4env : Nat → ExtAttempt := fun k =>
  if k = 2 then ⟨Except.ok (), some ["http://1.2.3.4:8080"]⟩
  else ⟨Except.error PyExc.timeoutError, none⟩

/-- C4 counterexample: after two failed attempts the source has not given up
with an empty list (within two nested calls it has not returned at all); it
performs a second self-retry and returns the third attempt's non-empty
result — contradicting "at most one self-retry before giving up and yielding
an empty list". -/
theorem C4_retry_counterexample :
    get_proxies_from_external c4env 0 2 = none ∧
    get_proxies_from_external c4env 0 3 = some ["http://1.2.3.4:8080"] :=
  ⟨by decide, by decide⟩

/-- C4 amended: the self-retry of the external-process source is unbounded —
whenever an attempt collects nothing the source calls itself again, so a
returned result is never the empty list, and in an environment where every
attempt collects nothing the recursion never returns at any depth. -/
theorem C4_unbounded_retry_amended :
    (∀ (env : Nat → ExtAttempt) (k fuel : Nat) (l : List String),
        get_proxies_from_external env k fuel = some l → l ≠ []) ∧
    (∀ (k fuel : Nat),
        get_proxies_from_external (fun _ => ⟨Except.ok (), none⟩) k fuel
          = none) := by
  constructor
  · intro env k fuel
    induction fuel generalizing k with
    | zero =>
        intro l h
        exact absurd h (by simp [get_proxies_from_external])
    | succ n ih =>
        intro l h
        rw [get_proxies_from_external] at h
        by_cases hc : extCollect (env k) = []
        · rw [if_pos hc] at h
          exact ih (k + 1) l h
        · rw [if_neg hc] at h
          have := Option.some.inj h
          subst this
          exact hc
  · intro k fuel
    induction fuel generalizing k with
    | zero => rfl
    | succ n ih =>
        rw [get_proxies_from_external]
        rw [if_pos (show extCollect ⟨Except.ok (), none⟩ = [] from rfl)]
        exact ih (k + 1)

/-- Witness for C4: a returned result is non-empty at the concrete
environment of the counterexample. -/
theorem C4_unbounded_retry_amended_witness :
    get_proxies_from_external c4env 0 3 = some ["http://1.2.3.4:8080"] ∧
    (["http://1.2.3.4:8080"] : List String) ≠ [] :=
  ⟨by decide,
    C4_unbounded_retry_amended.1 c4env 0 3 ["http://1.2.3.4:8080"]
      (by decide)⟩

/-- The environment of the C5 counterexample: the proxy-list file exists and
the broker's check-mode run raises an OSError — an exception type that the
verification step's `except RuntimeError` does not catch. -/
def c5env : AcqEnv :=
  { pathIsFile := true
    fileLines := ["http://1.2.3.4:8080"]
    settingsList := []
    checkBroker := Except.error (PyExc.other "OSError")
    collectBroker := Except.ok []
    extEnv := fun _ => ⟨Except.ok (), none⟩
    extFuel := 0 }

/-- C5 counterexample: a broker exception other than RuntimeError thrown
during the verification step propagates out of `get_proxies` to its caller,
contradicting "never raised ... for every exception type the broker may
throw". -/
theorem C5_verification_exception_counterexample :
    get_proxies c5env true true
      = some (Except.error (PyExc.other "OSError")) := rfl

/-- C5 amended: source failures are absorbed at the chain boundary except in
the verification step, whose handler catches only RuntimeError: a RuntimeError
leaves the supplied list as the result, a missing file falls through to the
inline settings list, and every broker exception in collect mode yields the
empty list — but any non-RuntimeError broker exception in check mode
propagates out of `get_proxies` to its caller. -/
theorem C5_error_boundary_amended :
    (∀ l : List String,
      check_proxies l (Except.error PyExc.runtimeError) = Except.ok l) ∧
    (∀ (l : List String) (e : PyExc), e ≠ PyExc.runtimeError →
      check_proxies l (Except.error e) = Except.error e) ∧
    (∀ e : PyExc, get_proxies_programmatically (Except.error e) = []) ∧
    (∀ env : AcqEnv, env.pathIsFile = false →
      get_proxies_from_file env = Except.ok env.settingsList.dedup) ∧
    (∀ (env : AcqEnv) (e : PyExc), env.pathIsFile = true →
      env.checkBroker = Except.error e → e ≠ PyExc.runtimeError →
      get_proxies env true true = some (Except.error e)) := by
  refine ⟨fun l => by simp [check_proxies],
    fun l e he => by simp [check_proxies, he],
    fun e => rfl,
    fun env h => by simp [get_proxies_from_file, h],
    ?_⟩
  intro env e hpath hcb hne
  have hfile : get_proxies_from_file env = Except.error e := by
    simp [get_proxies_from_file, hpath, hcb, check_proxies, hne]
  simp [get_proxies, hfile]

/-- Witness for C5 at the concrete environment of the counterexample. -/
theorem C5_error_boundary_amended_witness :
    c5env.pathIsFile = true ∧
    c5env.checkBroker = Except.error (PyExc.other "OSError") ∧
    PyExc.other "OSError" ≠ PyExc.runtimeError ∧
    get_proxies c5env true true
      = some (Except.error (PyExc.other "OSError")) :=
  ⟨rfl, rfl, by decide,
    C5_error_boundary_amended.2.2.2.2 c5env (PyExc.other "OSError") rfl rfl
      (by decide)⟩

/-- C1 counterexample: with `stopIfNoProxies` set, an empty selection raises
CloseSpider("no_proxies") immediately, with no acquisition run at all; and on
the other configuration path the second escalation run is performed with
`read_from_file = False`, so the forced run does not cover the file source —
both contradicting the claim. -/
theorem C1_stop_path_counterexample :
    process_request false false true none none none
      = (PROutcome.closeSpider "no_proxies", []) ∧
    process_request false false false none none none
      = (PROutcome.closeSpider "no_proxies_after_reset",
          [⟨true, false⟩, ⟨false, true⟩]) :=
  ⟨rfl, rfl⟩

/-- C1 amended: when selection is empty the behavior depends on the
`stopIfNoProxies` path.  If it is set, CloseSpider("no_proxies") is raised at
once with no acquisition run.  Otherwise the controller performs one
file-only run (`read_from_broker = False`) and retries; if still empty, one
run with `read_from_file = False` — covering the external and broker sources
but not the file — and retries; and raises
CloseSpider("no_proxies_after_reset") only if that also yields nothing.
The first run consults only the file source, and the second run's result is
independent of the file-source environment. -/
theorem C1_escalation_amended (sel1 sel2 : Option String) :
    (process_request false false true none sel1 sel2
      = (PROutcome.closeSpider "no_proxies", [])) ∧
    (∀ p, process_request false false false none (some p) sel2
      = (PROutcome.assigned p, [⟨true, false⟩])) ∧
    (∀ p, process_request false false false none none (some p)
      = (PROutcome.assigned p, [⟨true, false⟩, ⟨false, true⟩])) ∧
    (process_request false false false none none none
      = (PROutcome.closeSpider "no_proxies_after_reset",
          [⟨true, false⟩, ⟨false, true⟩])) ∧
    (∀ env : AcqEnv, get_proxies env true false
      = some (get_proxies_from_file env)) ∧
    (∀ env env' : AcqEnv, env.collectBroker = env'.collectBroker →
      env.extEnv = env'.extEnv → env.extFuel = env'.extFuel →
      get_proxies env false true = get_proxies env' false true) := by
  refine ⟨rfl, fun p => rfl, fun p => rfl, rfl, ?_, ?_⟩
  · intro env
    cases h : get_proxies_from_file env with
    | error e => simp [get_proxies, h]
    | ok pl => simp [get_proxies, h]
  · intro env env' h1 h2 h3
    simp [get_proxies, h1, h2, h3]

/-- A second-run environment with a file source configured (C1 witness). -/
def c1envA : AcqEnv :=
  { pathIsFile := true
    fileLines := ["http://1.2.3.4:8080"]
    settingsList := ["http://2.2.2.2:80"]
    checkBroker := Except.error (PyExc.other "OSError")
    collectBroker := Except.ok ["http://5.6.7.8:9090"]
    extEnv := fun _ => ⟨Except.ok (), none⟩
    extFuel := 1 }

/-- The same environment with the file source absent (C1 witness). -/
def c1envB : AcqEnv :=
  { pathIsFile := false
    fileLines := []
    settingsList := []
    checkBroker := Except.ok []
    collectBroker := Except.ok ["http://5.6.7.8:9090"]
    extEnv := fun _ => ⟨Except.ok (), none⟩
    extFuel := 1 }

/-- Witness for C1: the second escalation run gives the same result whether
or not a file source is configured — the forced run does not consult it. -/
theorem C1_escalation_amended_witness :
    process_request false false true none none none
      = (PROutcome.closeSpider "no_proxies", []) ∧
    c1envA.collectBroker = c1envB.collectBroker ∧
    get_proxies c1envA false true = get_proxies c1envB false true :=
  ⟨(C1_escalation_amended none none).1, rfl,
    (C1_escalation_amended none none).2.2.2.2.2 c1envA c1envB rfl rfl rfl⟩

end MoviesDS
